import Mathlib

/-!
Shallow embedding of the query-builder and error layer of the octocrab
repository (files src/api/issues/list.rs, src/api/pulls.rs, src/error.rs),
with theorems settling the specification claims about it.
-/

namespace Octocrab

/-- Wire value of a single query parameter, as produced by the structural
serializer: a string, an unsigned number, or a list of strings. -/
inductive QVal where
  | str : String → QVal
  | num : Nat → QVal
  | strList : List String → QVal
deriving DecidableEq, Repr

/-- Modelled from the spec: the closed enum params::State (its definition
lives in the params module, outside the provided sources); variants Open,
Closed, All, each with exactly one wire string. -/
inductive State where
  | Open
  | Closed
  | All
deriving DecidableEq, Repr

/-- Modelled from the spec: the single wire-string representation of each
State variant (the test in list.rs shows Open serializes to "open"). -/
def stateWire : State → String
  | State.Open => "open"
  | State.Closed => "closed"
  | State.All => "all"

/-- Modelled from the spec: the closed enum params::issues::Sort; variants
Created, Updated, Comments, each with exactly one wire string. -/
inductive IssueSort where
  | Created
  | Updated
  | Comments
deriving DecidableEq, Repr

/-- Modelled from the spec: the single wire-string representation of each
Sort variant (the test in list.rs shows Comments serializes to "comments"). -/
def sortWire : IssueSort → String
  | IssueSort.Created => "created"
  | IssueSort.Updated => "updated"
  | IssueSort.Comments => "comments"

/-- Modelled from the spec: the closed enum params::Direction; variants
Ascending and Descending, each with exactly one wire string. -/
inductive Direction where
  | Ascending
  | Descending
deriving DecidableEq, Repr

/-- Modelled from the spec: the single wire-string representation of each
Direction variant (the test in list.rs shows Ascending serializes to "asc"). -/
def directionWire : Direction → String
  | Direction.Ascending => "asc"
  | Direction.Descending => "desc"

/-- Modelled from the spec: the tri-state params::issues::Filter over a
parameter value; exactly one of wildcard, none, value holds. -/
inductive Filter (α : Type) where
  | wildcard
  | none
  | value (v : α)
deriving DecidableEq, Repr

/-- Modelled from the spec: serialization of a Filter; wildcard maps to the
string "*", none to the string "none", and a concrete value to its canonical
wire form given by enc. -/
def filterWire {α : Type} (enc : α → QVal) : Filter α → QVal
  | Filter.wildcard => QVal.str "*"
  | Filter.none => QVal.str "none"
  | Filter.value v => enc v

/-- Modelled from the spec: the conversion used when a plain number is passed
to the milestone setter; a number converts to the concrete-value case. -/
def Filter.ofNat (n : Nat) : Filter Nat :=
  Filter.value n

/-- Modelled from the spec: the conversion used when a plain string is passed
to the assignee setter; a string converts to the concrete-value case. -/
def Filter.ofStr (s : String) : Filter String :=
  Filter.value s

/-- Handler identity for the issues API: the owner and repo pair the builder
is scoped to (the Octocrab client reference carried by the real handler is
an opaque transport collaborator and holds no query state). -/
structure IssueHandler where
  owner : String
  repo : String
deriving DecidableEq, Repr

/-- Embedding of ListIssuesBuilder from src/api/issues/list.rs: the handler
reference (marked serde-skip in the source) plus ten optional query fields in
declaration order. Machine integers u8 and u32 are embedded as Nat; the
representable ranges appear as hypotheses where they matter. -/
structure ListIssuesBuilder where
  handler : IssueHandler
  state : Option State
  milestone : Option (Filter Nat)
  assignee : Option (Filter String)
  creator : Option String
  mentioned : Option String
  labels : Option (List String)
  sort : Option IssueSort
  direction : Option Direction
  per_page : Option Nat
  page : Option Nat
deriving DecidableEq, Repr

/-- Embedding of ListIssuesBuilder::new: every optional field starts unset. -/
def ListIssuesBuilder.new (handler : IssueHandler) : ListIssuesBuilder :=
  { handler := handler
    state := Option.none
    milestone := Option.none
    assignee := Option.none
    creator := Option.none
    mentioned := Option.none
    labels := Option.none
    sort := Option.none
    direction := Option.none
    per_page := Option.none
    page := Option.none }

/-- Embedding of the state setter (named set_state because the Lean field
projection already uses the source name). -/
def ListIssuesBuilder.set_state (self : ListIssuesBuilder) (v : State) : ListIssuesBuilder :=
  { self with state := some v }

/-- Embedding of the milestone setter; the argument is the already-converted
Filter value (the Into conversion happens at the call site in the source). -/
def ListIssuesBuilder.set_milestone (self : ListIssuesBuilder) (v : Filter Nat) : ListIssuesBuilder :=
  { self with milestone := some v }

/-- Embedding of the assignee setter. -/
def ListIssuesBuilder.set_assignee (self : ListIssuesBuilder) (v : Filter String) : ListIssuesBuilder :=
  { self with assignee := some v }

/-- Embedding of the creator setter. -/
def ListIssuesBuilder.set_creator (self : ListIssuesBuilder) (v : String) : ListIssuesBuilder :=
  { self with creator := some v }

/-- Embedding of the mentioned setter. -/
def ListIssuesBuilder.set_mentioned (self : ListIssuesBuilder) (v : String) : ListIssuesBuilder :=
  { self with mentioned := some v }

/-- Embedding of the labels setter; the argument is the borrowed label list. -/
def ListIssuesBuilder.set_labels (self : ListIssuesBuilder) (v : List String) : ListIssuesBuilder :=
  { self with labels := some v }

/-- Embedding of the sort setter. -/
def ListIssuesBuilder.set_sort (self : ListIssuesBuilder) (v : IssueSort) : ListIssuesBuilder :=
  { self with sort := some v }

/-- Embedding of the direction setter. -/
def ListIssuesBuilder.set_direction (self : ListIssuesBuilder) (v : Direction) : ListIssuesBuilder :=
  { self with direction := some v }

/-- Embedding of the per_page setter; the source argument type u8 makes the
value at most 255, recorded as a hypothesis where relevant. -/
def ListIssuesBuilder.set_per_page (self : ListIssuesBuilder) (v : Nat) : ListIssuesBuilder :=
  { self with per_page := some v }

/-- Embedding of the page setter; the source argument type is u32. -/
def ListIssuesBuilder.set_page (self : ListIssuesBuilder) (v : Nat) : ListIssuesBuilder :=
  { self with page := some v }

/-- Serialization of one optional field: an unset field contributes nothing,
a set field contributes exactly one name-value pair. -/
def optPair (name : String) (o : Option QVal) : List (String × QVal) :=
  match o with
  | Option.none => []
  | some v => [(name, v)]

/-- Serialization of the builder, from the serde derive on the struct in
src/api/issues/list.rs: the handler is skipped, the ten optional fields
appear in declaration order. Modelled from the spec: the serialization
collaborator uses skip-if-absent semantics for optional fields. -/
def serializeListIssues (b : ListIssuesBuilder) : List (String × QVal) :=
  optPair "state" (b.state.map fun s => QVal.str (stateWire s)) ++
  optPair "milestone" (b.milestone.map (filterWire QVal.num)) ++
  optPair "assignee" (b.assignee.map (filterWire QVal.str)) ++
  optPair "creator" (b.creator.map QVal.str) ++
  optPair "mentioned" (b.mentioned.map QVal.str) ++
  optPair "labels" (b.labels.map QVal.strList) ++
  optPair "sort" (b.sort.map fun s => QVal.str (sortWire s)) ++
  optPair "direction" (b.direction.map fun d => QVal.str (directionWire d)) ++
  optPair "per_page" (b.per_page.map QVal.num) ++
  optPair "page" (b.page.map QVal.num)

/-- Names of the serialized query parameters, in declaration order. -/
def issueFieldOrder : List String :=
  ["state", "milestone", "assignee", "creator", "mentioned", "labels",
   "sort", "direction", "per_page", "page"]

/-- Keys of a serialized query. -/
def keysOf (l : List (String × QVal)) : List String :=
  l.map Prod.fst

/-- Whether the builder field with the given wire name is set. -/
def fieldIsSet (b : ListIssuesBuilder) : String → Bool
  | "state" => b.state.isSome
  | "milestone" => b.milestone.isSome
  | "assignee" => b.assignee.isSome
  | "creator" => b.creator.isSome
  | "mentioned" => b.mentioned.isSome
  | "labels" => b.labels.isSome
  | "sort" => b.sort.isSome
  | "direction" => b.direction.isSome
  | "per_page" => b.per_page.isSome
  | "page" => b.page.isSome
  | _ => false

/-- Helper: keys contributed by a single optional field. -/
theorem mapFst_optPair {α : Type} (n : String) (o : Option α) (f : α → QVal) :
    (optPair n (o.map f)).map Prod.fst = if o.isSome then [n] else [] := by
  cases o <;> rfl

/-- Helper: one field of the serialized key list matches one step of the
filtered declaration-order list. -/
theorem filter_step (c : Bool) (n : String) (l r : List String) (h : l = r) :
    ((if c = true then [n] else []) ++ l) = (if c = true then n :: r else r) := by
  cases c <;> simp [h]

/-- Helper: the serialized query names exactly the set fields, in declaration
order. -/
theorem serialize_keys_eq (b : ListIssuesBuilder) :
    keysOf (serializeListIssues b) = issueFieldOrder.filter (fieldIsSet b) := by
  simp only [serializeListIssues, keysOf, issueFieldOrder, List.map_append,
    List.append_assoc, mapFst_optPair, List.filter_cons, List.filter_nil, fieldIsSet]
  exact filter_step _ _ _ _ (filter_step _ _ _ _ (filter_step _ _ _ _ (filter_step _ _ _ _
    (filter_step _ _ _ _ (filter_step _ _ _ _ (filter_step _ _ _ _ (filter_step _ _ _ _
    (filter_step _ _ _ _ rfl))))))))

/-- Helper: the serialized query keys form a sublist of the declaration-order
field list. -/
theorem serialize_keys_sublist (b : ListIssuesBuilder) :
    List.Sublist (keysOf (serializeListIssues b)) issueFieldOrder := by
  rw [serialize_keys_eq b]
  exact List.filter_sublist issueFieldOrder

/-- C1: for every combination of unset fields, the serialized query names
exactly the fields that are set, in declaration order; unset fields are
omitted entirely, never emitted as null or empty entries. -/
theorem serialize_exactly_set_fields (b : ListIssuesBuilder) :
    keysOf (serializeListIssues b) = issueFieldOrder.filter (fieldIsSet b) :=
  serialize_keys_eq b

set_option maxHeartbeats 1000000 in
/-- C2: the concrete scenario from the test in src/api/issues/list.rs: the
fully configured builder serializes to exactly the expected ten pairs. -/
theorem serialize_concrete_scenario :
    serializeListIssues
      ((ListIssuesBuilder.new ⟨"rust-lang", "rust"⟩).set_state State.Open
        |>.set_milestone (Filter.ofNat 1234)
        |>.set_assignee (Filter.ofStr "ferris")
        |>.set_creator "octocrab"
        |>.set_mentioned "octocat"
        |>.set_labels ["help wanted", "good first issue"]
        |>.set_sort IssueSort.Comments
        |>.set_direction Direction.Ascending
        |>.set_per_page 100
        |>.set_page 1)
    = [("state", QVal.str "open"),
       ("milestone", QVal.num 1234),
       ("assignee", QVal.str "ferris"),
       ("creator", QVal.str "octocrab"),
       ("mentioned", QVal.str "octocat"),
       ("labels", QVal.strList ["help wanted", "good first issue"]),
       ("sort", QVal.str "comments"),
       ("direction", QVal.str "asc"),
       ("per_page", QVal.num 100),
       ("page", QVal.num 1)] := by decide

/-- Logical request handed to the transport collaborator: a method, a path
and the serialized query parameters. -/
structure HttpRequest where
  method : String
  path : String
  query : List (String × QVal)
deriving DecidableEq, Repr

/-- Embedding of ListIssuesBuilder::send from src/api/issues/list.rs: the path
is formatted as /repos/ followed by owner, repo and /issues, and the builder
itself is passed as the query parameters. Modelled from the spec: the
dispatcher get operation (outside the provided sources) issues a GET carrying
the serialized query. -/
def ListIssuesBuilder.send (b : ListIssuesBuilder) : HttpRequest :=
  { method := "GET"
    path := "/repos/" ++ b.handler.owner ++ "/" ++ b.handler.repo ++ "/issues"
    query := serializeListIssues b }

/-- C5 counterexample: the request path interpolated for owner rust-lang and
repo rust is /repos/rust-lang/rust/issues, not the claimed
/rust-lang/rust/issues. -/
theorem send_path_counterexample :
    ((ListIssuesBuilder.new ⟨"rust-lang", "rust"⟩).send).path = "/repos/rust-lang/rust/issues"
    ∧ ((ListIssuesBuilder.new ⟨"rust-lang", "rust"⟩).send).path ≠ "/rust-lang/rust/issues" := by
  exact ⟨rfl, by decide⟩

/-- C5 as amended: the list-issues request is a GET whose path is /repos/
followed by the handler owner and repo and /issues, carrying exactly the
serialized optional query fields, whose names stay within the declared ten. -/
theorem send_request_shape (b : ListIssuesBuilder) :
    (b.send).method = "GET"
    ∧ (b.send).path = "/repos/" ++ b.handler.owner ++ "/" ++ b.handler.repo ++ "/issues"
    ∧ (b.send).query = serializeListIssues b
    ∧ List.Sublist (keysOf ((b.send).query)) issueFieldOrder :=
  ⟨rfl, rfl, rfl, serialize_keys_sublist b⟩

/-- C6: every setter returns a builder in which exactly its own field changed
to the given value, while the handler identity and every other field are
unchanged; each setter is a total pure function. -/
theorem setters_frame :
    (∀ (b : ListIssuesBuilder) (v : State),
      (b.set_state v).state = some v ∧ (b.set_state v).handler = b.handler ∧
      (b.set_state v).milestone = b.milestone ∧ (b.set_state v).assignee = b.assignee ∧
      (b.set_state v).creator = b.creator ∧ (b.set_state v).mentioned = b.mentioned ∧
      (b.set_state v).labels = b.labels ∧ (b.set_state v).sort = b.sort ∧
      (b.set_state v).direction = b.direction ∧ (b.set_state v).per_page = b.per_page ∧
      (b.set_state v).page = b.page)
    ∧ (∀ (b : ListIssuesBuilder) (v : Filter Nat),
      (b.set_milestone v).milestone = some v ∧ (b.set_milestone v).handler = b.handler ∧
      (b.set_milestone v).state = b.state ∧ (b.set_milestone v).assignee = b.assignee ∧
      (b.set_milestone v).creator = b.creator ∧ (b.set_milestone v).mentioned = b.mentioned ∧
      (b.set_milestone v).labels = b.labels ∧ (b.set_milestone v).sort = b.sort ∧
      (b.set_milestone v).direction = b.direction ∧ (b.set_milestone v).per_page = b.per_page ∧
      (b.set_milestone v).page = b.page)
    ∧ (∀ (b : ListIssuesBuilder) (v : Filter String),
      (b.set_assignee v).assignee = some v ∧ (b.set_assignee v).handler = b.handler ∧
      (b.set_assignee v).state = b.state ∧ (b.set_assignee v).milestone = b.milestone ∧
      (b.set_assignee v).creator = b.creator ∧ (b.set_assignee v).mentioned = b.mentioned ∧
      (b.set_assignee v).labels = b.labels ∧ (b.set_assignee v).sort = b.sort ∧
      (b.set_assignee v).direction = b.direction ∧ (b.set_assignee v).per_page = b.per_page ∧
      (b.set_assignee v).page = b.page)
    ∧ (∀ (b : ListIssuesBuilder) (v : String),
      (b.set_creator v).creator = some v ∧ (b.set_creator v).handler = b.handler ∧
      (b.set_creator v).state = b.state ∧ (b.set_creator v).milestone = b.milestone ∧
      (b.set_creator v).assignee = b.assignee ∧ (b.set_creator v).mentioned = b.mentioned ∧
      (b.set_creator v).labels = b.labels ∧ (b.set_creator v).sort = b.sort ∧
      (b.set_creator v).direction = b.direction ∧ (b.set_creator v).per_page = b.per_page ∧
      (b.set_creator v).page = b.page)
    ∧ (∀ (b : ListIssuesBuilder) (v : String),
      (b.set_mentioned v).mentioned = some v ∧ (b.set_mentioned v).handler = b.handler ∧
      (b.set_mentioned v).state = b.state ∧ (b.set_mentioned v).milestone = b.milestone ∧
      (b.set_mentioned v).assignee = b.assignee ∧ (b.set_mentioned v).creator = b.creator ∧
      (b.set_mentioned v).labels = b.labels ∧ (b.set_mentioned v).sort = b.sort ∧
      (b.set_mentioned v).direction = b.direction ∧ (b.set_mentioned v).per_page = b.per_page ∧
      (b.set_mentioned v).page = b.page)
    ∧ (∀ (b : ListIssuesBuilder) (v : List String),
      (b.set_labels v).labels = some v ∧ (b.set_labels v).handler = b.handler ∧
      (b.set_labels v).state = b.state ∧ (b.set_labels v).milestone = b.milestone ∧
      (b.set_labels v).assignee = b.assignee ∧ (b.set_labels v).creator = b.creator ∧
      (b.set_labels v).mentioned = b.mentioned ∧ (b.set_labels v).sort = b.sort ∧
      (b.set_labels v).direction = b.direction ∧ (b.set_labels v).per_page = b.per_page ∧
      (b.set_labels v).page = b.page)
    ∧ (∀ (b : ListIssuesBuilder) (v : IssueSort),
      (b.set_sort v).sort = some v ∧ (b.set_sort v).handler = b.handler ∧
      (b.set_sort v).state = b.state ∧ (b.set_sort v).milestone = b.milestone ∧
      (b.set_sort v).assignee = b.assignee ∧ (b.set_sort v).creator = b.creator ∧
      (b.set_sort v).mentioned = b.mentioned ∧ (b.set_sort v).labels = b.labels ∧
      (b.set_sort v).direction = b.direction ∧ (b.set_sort v).per_page = b.per_page ∧
      (b.set_sort v).page = b.page)
    ∧ (∀ (b : ListIssuesBuilder) (v : Direction),
      (b.set_direction v).direction = some v ∧ (b.set_direction v).handler = b.handler ∧
      (b.set_direction v).state = b.state ∧ (b.set_direction v).milestone = b.milestone ∧
      (b.set_direction v).assignee = b.assignee ∧ (b.set_direction v).creator = b.creator ∧
      (b.set_direction v).mentioned = b.mentioned ∧ (b.set_direction v).labels = b.labels ∧
      (b.set_direction v).sort = b.sort ∧ (b.set_direction v).per_page = b.per_page ∧
      (b.set_direction v).page = b.page)
    ∧ (∀ (b : ListIssuesBuilder) (v : Nat),
      (b.set_per_page v).per_page = some v ∧ (b.set_per_page v).handler = b.handler ∧
      (b.set_per_page v).state = b.state ∧ (b.set_per_page v).milestone = b.milestone ∧
      (b.set_per_page v).assignee = b.assignee ∧ (b.set_per_page v).creator = b.creator ∧
      (b.set_per_page v).mentioned = b.mentioned ∧ (b.set_per_page v).labels = b.labels ∧
      (b.set_per_page v).sort = b.sort ∧ (b.set_per_page v).direction = b.direction ∧
      (b.set_per_page v).page = b.page)
    ∧ (∀ (b : ListIssuesBuilder) (v : Nat),
      (b.set_page v).page = some v ∧ (b.set_page v).handler = b.handler ∧
      (b.set_page v).state = b.state ∧ (b.set_page v).milestone = b.milestone ∧
      (b.set_page v).assignee = b.assignee ∧ (b.set_page v).creator = b.creator ∧
      (b.set_page v).mentioned = b.mentioned ∧ (b.set_page v).labels = b.labels ∧
      (b.set_page v).sort = b.sort ∧ (b.set_page v).direction = b.direction ∧
      (b.set_page v).per_page = b.per_page) := by
  refine ⟨?_, ?_, ?_, ?_, ?_, ?_, ?_, ?_, ?_, ?_⟩ <;> intro b v <;>
    exact ⟨rfl, rfl, rfl, rfl, rfl, rfl, rfl, rfl, rfl, rfl, rfl⟩

/-- C10: for every count that fits the u8 argument type, the per_page setter
records exactly that count, with no rejection and no clamping at the
API-level cap of 100. -/
theorem per_page_stores_exactly (b : ListIssuesBuilder) (n : Nat) (_h : n < 256) :
    (b.set_per_page n).per_page = some n := rfl

/-- Witness for C10 at the concrete count 255, which exceeds the API-level
cap of 100 and is still stored unchanged. -/
theorem per_page_stores_exactly_witness :
    ((ListIssuesBuilder.new ⟨"o", "r"⟩).set_per_page 255).per_page = some 255 :=
  per_page_stores_exactly (ListIssuesBuilder.new ⟨"o", "r"⟩) 255 (by decide)

/-- One setter call of the fluent chain, carrying its argument. -/
inductive SetterCall where
  | state (v : State)
  | milestone (v : Filter Nat)
  | assignee (v : Filter String)
  | creator (v : String)
  | mentioned (v : String)
  | labels (v : List String)
  | sort (v : IssueSort)
  | direction (v : Direction)
  | per_page (v : Nat)
  | page (v : Nat)
deriving DecidableEq, Repr

/-- Interpretation of one setter call on a builder. -/
def applyCall (b : ListIssuesBuilder) : SetterCall → ListIssuesBuilder
  | SetterCall.state v => b.set_state v
  | SetterCall.milestone v => b.set_milestone v
  | SetterCall.assignee v => b.set_assignee v
  | SetterCall.creator v => b.set_creator v
  | SetterCall.mentioned v => b.set_mentioned v
  | SetterCall.labels v => b.set_labels v
  | SetterCall.sort v => b.set_sort v
  | SetterCall.direction v => b.set_direction v
  | SetterCall.per_page v => b.set_per_page v
  | SetterCall.page v => b.set_page v

/-- Interpretation of a whole chain of setter calls, left to right. -/
def applyCalls (b : ListIssuesBuilder) (cs : List SetterCall) : ListIssuesBuilder :=
  cs.foldl applyCall b

/-- Field targeted by a setter call. -/
def SetterCall.field : SetterCall → String
  | SetterCall.state _ => "state"
  | SetterCall.milestone _ => "milestone"
  | SetterCall.assignee _ => "assignee"
  | SetterCall.creator _ => "creator"
  | SetterCall.mentioned _ => "mentioned"
  | SetterCall.labels _ => "labels"
  | SetterCall.sort _ => "sort"
  | SetterCall.direction _ => "direction"
  | SetterCall.per_page _ => "per_page"
  | SetterCall.page _ => "page"

/-- Helper: setter calls on distinct fields commute. -/
theorem applyCall_comm (b : ListIssuesBuilder) (c1 c2 : SetterCall)
    (h : c1.field ≠ c2.field) :
    applyCall (applyCall b c1) c2 = applyCall (applyCall b c2) c1 := by
  cases c1 <;> cases c2 <;> first
    | rfl
    | exact absurd rfl h

/-- Helper: a chain of setter calls touching pairwise distinct fields yields
the same builder after any reordering. -/
theorem applyCalls_perm (b : ListIssuesBuilder) (cs1 cs2 : List SetterCall)
    (hp : cs1.Perm cs2)
    (hd : cs1.Pairwise (fun x y => SetterCall.field x ≠ SetterCall.field y)) :
    applyCalls b cs1 = applyCalls b cs2 := by
  refine List.Perm.foldl_eq' hp ?_ b
  intro x hx y hy z
  by_cases hxy : x = y
  · subst hxy
    rfl
  · have hsymm : Symmetric (fun x y : SetterCall => SetterCall.field x ≠ SetterCall.field y) :=
      fun _ _ h e => h e.symm
    exact applyCall_comm z x y (hd.forall hsymm hx hy hxy)

/-- C7: any two chains that set the same pairwise-distinct fields to the same
values, in any order, serialize identically; and the serialized fields always
appear in declaration order, a sublist of the declared field list, not in
insertion order. -/
theorem serialize_order_independent :
    (∀ (b : ListIssuesBuilder) (cs1 cs2 : List SetterCall),
      cs1.Perm cs2 →
      cs1.Pairwise (fun x y => SetterCall.field x ≠ SetterCall.field y) →
      serializeListIssues (applyCalls b cs1) = serializeListIssues (applyCalls b cs2))
    ∧ (∀ b : ListIssuesBuilder,
      List.Sublist (keysOf (serializeListIssues b)) issueFieldOrder) :=
  ⟨fun b cs1 cs2 hp hd => by rw [applyCalls_perm b cs1 cs2 hp hd],
   serialize_keys_sublist⟩

/-- Witness for C7: setting page then state gives the same serialization as
setting state then page, with state serialized first either way. -/
theorem serialize_order_independent_witness :
    serializeListIssues (applyCalls (ListIssuesBuilder.new ⟨"o", "r"⟩)
        [SetterCall.page 2, SetterCall.state State.Open])
      = serializeListIssues (applyCalls (ListIssuesBuilder.new ⟨"o", "r"⟩)
        [SetterCall.state State.Open, SetterCall.page 2]) :=
  serialize_order_independent.1 (ListIssuesBuilder.new ⟨"o", "r"⟩)
    [SetterCall.page 2, SetterCall.state State.Open]
    [SetterCall.state State.Open, SetterCall.page 2]
    (by decide) (by decide)

/-- Captured call-site context, the snafu Backtrace carried by every error
variant; embedded as its list of frame descriptions. -/
structure Backtrace where
  frames : List String
deriving DecidableEq, Repr

/-- Rendering of a backtrace, one frame per line. -/
def Backtrace.render (bt : Backtrace) : String :=
  String.intercalate "\n" bt.frames

/-- Embedding of GitHubError from src/error.rs: the structured error reported
by the remote service, with its documentation link and message. -/
structure GitHubError where
  documentation_url : String
  message : String
deriving DecidableEq, Repr

/-- External collaborator type url::ParseError, embedded as its rendered
description. -/
structure UrlParseError where
  description : String
deriving DecidableEq, Repr

/-- External collaborator type reqwest::Error, embedded as its rendered
description. -/
structure ReqwestError where
  description : String
deriving DecidableEq, Repr

/-- External collaborator type serde_json::Error, embedded as its rendered
description. -/
structure SerdeJsonError where
  description : String
deriving DecidableEq, Repr

/-- External collaborator type serde_json::Value, the raw payload that failed
to decode, embedded as its rendered form. -/
structure JsonValue where
  rendered : String
deriving DecidableEq, Repr

/-- External collaborator type for the boxed uncategorized cause, embedded as
its rendered description. -/
structure BoxedError where
  description : String
deriving DecidableEq, Repr

/-- Embedding of the Error enum from src/error.rs: the five variants GitHub,
Url, Http, Json and Other, each carrying its source and a backtrace; the Json
variant additionally carries the raw payload that failed to decode. -/
inductive Error where
  | gitHub (source : GitHubError) (backtrace : Backtrace)
  | url (source : UrlParseError) (backtrace : Backtrace)
  | http (source : ReqwestError) (backtrace : Backtrace)
  | json (source : SerdeJsonError) (json : JsonValue) (backtrace : Backtrace)
  | other (source : BoxedError) (backtrace : Backtrace)
deriving DecidableEq, Repr

/-- Discriminant of the error union. -/
inductive ErrorKind where
  | gitHub
  | url
  | http
  | json
  | other
deriving DecidableEq, Repr

/-- Kind of an error value. -/
def Error.kind : Error → ErrorKind
  | Error.gitHub _ _ => ErrorKind.gitHub
  | Error.url _ _ => ErrorKind.url
  | Error.http _ _ => ErrorKind.http
  | Error.json _ _ _ => ErrorKind.json
  | Error.other _ _ => ErrorKind.other

/-- Backtrace carried by an error value, defined for every variant. -/
def Error.backtrace : Error → Backtrace
  | Error.gitHub _ b => b
  | Error.url _ b => b
  | Error.http _ b => b
  | Error.json _ _ b => b
  | Error.other _ b => b

/-- Decode failure carried by the Json variant, recoverable by matching. -/
def Error.jsonSource : Error → Option SerdeJsonError
  | Error.json s _ _ => some s
  | _ => Option.none

/-- Raw payload carried by the Json variant, recoverable by matching. -/
def Error.jsonPayload : Error → Option JsonValue
  | Error.json _ j _ => some j
  | _ => Option.none

/-- C4: the error type is a closed discriminated union of exactly five
variants, all five constructible, and the decode-error variant carries both
the underlying decode failure and the raw payload that failed to decode. -/
theorem error_taxonomy :
    (∀ e : Error,
      (∃ s b, e = Error.gitHub s b) ∨ (∃ s b, e = Error.url s b) ∨
      (∃ s b, e = Error.http s b) ∨ (∃ s j b, e = Error.json s j b) ∨
      (∃ s b, e = Error.other s b))
    ∧ (∀ k : ErrorKind, ∃ e : Error, e.kind = k)
    ∧ (∀ s j b, (Error.json s j b).jsonSource = some s
        ∧ (Error.json s j b).jsonPayload = some j) := by
  refine ⟨?_, ?_, fun s j b => ⟨rfl, rfl⟩⟩
  · intro e
    cases e with
    | gitHub s b => exact Or.inl ⟨s, b, rfl⟩
    | url s b => exact Or.inr (Or.inl ⟨s, b, rfl⟩)
    | http s b => exact Or.inr (Or.inr (Or.inl ⟨s, b, rfl⟩))
    | json s j b => exact Or.inr (Or.inr (Or.inr (Or.inl ⟨s, j, b, rfl⟩)))
    | other s b => exact Or.inr (Or.inr (Or.inr (Or.inr ⟨s, b, rfl⟩)))
  · intro k
    cases k with
    | gitHub => exact ⟨Error.gitHub ⟨"", ""⟩ ⟨[]⟩, rfl⟩
    | url => exact ⟨Error.url ⟨""⟩ ⟨[]⟩, rfl⟩
    | http => exact ⟨Error.http ⟨""⟩ ⟨[]⟩, rfl⟩
    | json => exact ⟨Error.json ⟨""⟩ ⟨""⟩ ⟨[]⟩, rfl⟩
    | other => exact ⟨Error.other ⟨""⟩ ⟨[]⟩, rfl⟩

/-- C8: every variant of the error union carries a backtrace attached at
construction, recoverable from the constructed value. -/
theorem error_backtrace_attached :
    (∀ s b, (Error.gitHub s b).backtrace = b)
    ∧ (∀ s b, (Error.url s b).backtrace = b)
    ∧ (∀ s b, (Error.http s b).backtrace = b)
    ∧ (∀ s j b, (Error.json s j b).backtrace = b)
    ∧ (∀ s b, (Error.other s b).backtrace = b) :=
  ⟨fun _ _ => rfl, fun _ _ => rfl, fun _ _ => rfl, fun _ _ _ => rfl, fun _ _ => rfl⟩

/-- Embedding of the Display of GitHubError from src/error.rs: the message
followed by the documentation link. -/
def GitHubError.display (g : GitHubError) : String :=
  "Error: " ++ g.message ++ "\nDocumentation URL: " ++ g.documentation_url

/-- Embedding of the derived Display of the Error enum: the Http and Json
variants use the display attributes written in src/error.rs; the GitHub, Url
and Other variants have no display attribute, so the snafu derive renders
just the variant name. -/
def Error.display : Error → String
  | Error.gitHub _ _ => "GitHub"
  | Error.url _ _ => "Url"
  | Error.http s b => "HTTP Error: " ++ s.description ++ "\n\nFound at " ++ b.render
  | Error.json s j b =>
      "JSON Error: " ++ s.description ++ "\n" ++ j.rendered ++ "\nFound at " ++ b.render
  | Error.other _ _ => "Other"

/-- Containment of one string inside another, as an explicit decomposition. -/
def strContains (hay needle : String) : Prop :=
  ∃ p q, hay = p ++ needle ++ q

/-- C9 counterexample: a GitHub-variant error renders as just the variant
name, which does not contain the documentation URL reported by the remote
service. -/
theorem error_display_counterexample :
    (Error.gitHub ⟨"https://docs.github.com/v3/pulls", "Not Found"⟩ ⟨[]⟩).display = "GitHub"
    ∧ ¬ strContains
        (Error.gitHub ⟨"https://docs.github.com/v3/pulls", "Not Found"⟩ ⟨[]⟩).display
        "https://docs.github.com/v3/pulls" := by
  refine ⟨rfl, ?_⟩
  rintro ⟨p, q, hpq⟩
  have hlen := congrArg String.length hpq
  have h1 : ("GitHub" : String).length = 6 := rfl
  have h2 : ("https://docs.github.com/v3/pulls" : String).length = 32 := rfl
  rw [String.length_append, String.length_append] at hlen
  simp only [Error.display] at hlen
  omega

/-- C9 as amended: every variant renders a nonempty human-readable message;
the decode-error variant additionally renders the offending raw payload; the
documentation URL is rendered by the Display of the GitHubError payload
itself, not by the Display of the GitHub variant of the union. -/
theorem error_display_contract :
    (∀ e : Error, 1 ≤ e.display.length)
    ∧ (∀ s j b, strContains (Error.json s j b).display j.rendered)
    ∧ (∀ g : GitHubError,
        strContains g.display g.documentation_url ∧ strContains g.display g.message) := by
  refine ⟨?_, ?_, ?_⟩
  · intro e
    cases e with
    | gitHub s b => exact (by decide : 1 ≤ ("GitHub" : String).length)
    | url s b => exact (by decide : 1 ≤ ("Url" : String).length)
    | http s b =>
        have h12 : ("HTTP Error: " : String).length = 12 := rfl
        simp only [Error.display, String.length_append]
        omega
    | json s j b =>
        have h12 : ("JSON Error: " : String).length = 12 := rfl
        simp only [Error.display, String.length_append]
        omega
    | other s b => exact (by decide : 1 ≤ ("Other" : String).length)
  · intro s j b
    exact ⟨"JSON Error: " ++ s.description ++ "\n", "\nFound at " ++ b.render,
      by simp [Error.display, String.append_assoc]⟩
  · intro g
    constructor
    · exact ⟨"Error: " ++ g.message ++ "\nDocumentation URL: ", "",
        by simp [GitHubError.display, String.append_assoc, String.append_empty]⟩
    · exact ⟨"Error: ", "\nDocumentation URL: " ++ g.documentation_url,
        by simp [GitHubError.display, String.append_assoc]⟩

/-- Response delivered by the transport collaborator: a status code and the
raw body, which the merge check never decodes. -/
structure Response where
  status : Nat
  body : String
deriving DecidableEq, Repr

/-- Embedding of PullRequestHandler from src/api/pulls.rs: the owner and repo
identity (the Octocrab client reference is the transport collaborator,
abstracted as a parameter of the operations that use it). -/
structure PullRequestHandler where
  owner : String
  repo : String
deriving DecidableEq, Repr

/-- Route formatted by is_merged in src/api/pulls.rs. -/
def PullRequestHandler.merge_route (h : PullRequestHandler) (pr : Nat) : String :=
  "/repos/" ++ h.owner ++ "/" ++ h.repo ++ "/pulls/" ++ toString pr ++ "/merge"

/-- Embedding of PullRequestHandler::is_merged from src/api/pulls.rs: issue
the GET through the transport, propagate its error unchanged, and otherwise
compare the response status against 204 without touching the body. -/
def PullRequestHandler.is_merged (h : PullRequestHandler) (pr : Nat)
    (transport : String → Except Error Response) : Except Error Bool :=
  match transport (h.merge_route pr) with
  | Except.error e => Except.error e
  | Except.ok response => Except.ok (response.status == 204)

/-- C3: the merge check returns Ok true exactly when the response status is
204 and Ok false for every other status; the result depends only on the
status, never on the body, and transport errors propagate unchanged. -/
theorem is_merged_status_only (h : PullRequestHandler) (pr : Nat) (resp : Response) :
    (h.is_merged pr (fun _ => Except.ok resp) = Except.ok (resp.status == 204))
    ∧ (h.is_merged pr (fun _ => Except.ok resp) = Except.ok true ↔ resp.status = 204)
    ∧ (resp.status ≠ 204 → h.is_merged pr (fun _ => Except.ok resp) = Except.ok false)
    ∧ (∀ body2 : String,
        h.is_merged pr (fun _ => Except.ok { status := resp.status, body := body2 })
          = h.is_merged pr (fun _ => Except.ok resp))
    ∧ (∀ e : Error, h.is_merged pr (fun _ => Except.error e) = Except.error e) := by
  refine ⟨rfl, ?_, ?_, fun _ => rfl, fun _ => rfl⟩
  · simp [PullRequestHandler.is_merged]
  · intro hne
    have hb : (resp.status == 204) = false := beq_eq_false_iff_ne.mpr hne
    simp [PullRequestHandler.is_merged, hb]

/-- Witness for C3 at status 200: a non-204 response yields Ok false. -/
theorem is_merged_status_only_witness :
    PullRequestHandler.is_merged ⟨"o", "r"⟩ 1 (fun _ => Except.ok ⟨200, "ignored"⟩)
      = Except.ok false :=
  (is_merged_status_only ⟨"o", "r"⟩ 1 ⟨200, "ignored"⟩).2.2.1 (by decide)

end Octocrab
